import Mathlib

/-!
Verification of the GPS-into-the-Future scene normalization and rendering
pipeline (`scene_card.py`).  The Python source is shallowly embedded: pure
helpers become Lean functions over `ℚ`/`Nat`/`String`, Python `None` becomes
`Option`, Python exceptions become `Except`, and the CPython string
operations used by the renderer (`split`, `replace`, `strip`, `in`, `join`,
slicing, `%`/`//` on floats, `:.0f`/`:.1f` formatting) are modelled by
executable character-list functions below.
-/

/-! ## Python string primitives -/

/-- Python `needle in haystack` on character lists (substring containment). -/
def containsSubL (needle : List Char) : List Char → Bool
  | [] => needle.isEmpty
  | c :: cs => (needle.isPrefixOf (c :: cs)) || containsSubL needle cs

/-- Python `needle in haystack` for strings. -/
def pyInStr (needle hay : String) : Bool := containsSubL needle.data hay.data

/-- Python `c in s` for a single character. -/
def containsChar (c : Char) (s : String) : Bool := s.data.contains c

/-- Python `s.split(sep)` for a one-character separator, on character lists.
Always returns at least one piece; a separator occurrence at the end yields a
trailing empty piece, as in Python. -/
def splitOnCharL (sep : Char) : List Char → List (List Char)
  | [] => [[]]
  | c :: cs =>
    match splitOnCharL sep cs with
    | [] => if c = sep then [[], []] else [[c]]
    | h :: t => if c = sep then [] :: h :: t else (c :: h) :: t

/-- Python `s.split(sep)` for a one-character separator. -/
def pySplitChar (sep : Char) (s : String) : List String :=
  (splitOnCharL sep s.data).map String.mk

/-- Python `s.replace("T", " ")`-style single-character replacement. -/
def pyReplaceChar (old new : Char) (s : String) : String :=
  String.mk (s.data.map fun c => if c = old then new else c)

/-- Python slicing `s[n:]`. -/
def pyDrop (s : String) (n : Nat) : String := String.mk (s.data.drop n)

/-- Python slicing `s[:n]`. -/
def pyTake (s : String) (n : Nat) : String := String.mk (s.data.take n)

/-- Python `s.strip()` (strip leading/trailing whitespace). -/
def pyStrip (s : String) : String :=
  String.mk (((s.data.dropWhile Char.isWhitespace).reverse.dropWhile
      Char.isWhitespace).reverse)

/-- Python `s.lower()` (ASCII case folding suffices for the strings used). -/
def pyLower (s : String) : String := String.mk (s.data.map Char.toLower)

/-- Python `s.upper()`. -/
def pyUpper (s : String) : String := String.mk (s.data.map Char.toUpper)

/-- Python `sep.join(parts)`. -/
def pyJoin (sep : String) : List String → String
  | [] => ""
  | [p] => p
  | p :: ps => p ++ sep ++ pyJoin sep ps

/-- Truthiness of a Python value that is either `None` or a string. -/
def pyTruthyS : Option String → Bool
  | none => false
  | some s => s ≠ ""

/-- Python `a or b` where both operands are `None`-or-string. -/
def pyOrS (a b : Option String) : Option String :=
  if pyTruthyS a then a else b

/-! ## Python float formatting

CPython's `format(x, ".0f")` / `".1f"` round to nearest with ties to even.
(The sign of a negative zero result is not modelled; no value in this
development produces one.) -/

/-- Round a rational to the nearest integer, ties to even (CPython `.0f`). -/
def roundHalfEven (q : ℚ) : ℤ :=
  let f : ℤ := ⌊q⌋
  let r : ℚ := q - f
  if r < 1/2 then f
  else if 1/2 < r then f + 1
  else if f % 2 = 0 then f else f + 1

/-- Python `f"{x:.0f}"`. -/
def pyFmt0 (q : ℚ) : String := toString (roundHalfEven q)

/-- Python `f"{x:.1f}"`. -/
def pyFmt1 (q : ℚ) : String :=
  let n : ℤ := roundHalfEven (q * 10)
  if n < 0 then
    "-" ++ toString ((-n) / 10) ++ "." ++ toString ((-n) % 10)
  else
    toString (n / 10) ++ "." ++ toString (n % 10)

/-- Python float `a % m` (`math.fmod`-style but with the sign of the
modulus, as the `%` operator behaves): `a - m * floor(a / m)`. -/
def pyFMod (a m : ℚ) : ℚ := a - m * ⌊a / m⌋

/-! ## Land-use category tally (`osm_features`, lines 322–326) -/

/-- The fixed category tally built by `osm_features`; every key present,
default 0, in the dict insertion order of the source. -/
structure Counts where
  residential : Nat := 0
  retail : Nat := 0
  industrial : Nat := 0
  commercial : Nat := 0
  park : Nat := 0
  forest : Nat := 0
  water : Nat := 0
  farmland : Nat := 0
  road_major : Nat := 0
  road_minor : Nat := 0
  building : Nat := 0
  deriving DecidableEq

/-- The category keys in their dict insertion (enumeration) order. -/
def catKeys : List String :=
  ["residential", "retail", "industrial", "commercial", "park", "forest",
   "water", "farmland", "road_major", "road_minor", "building"]

/-- The key/count pairs of the tally dict, in its iteration order. -/
def landusePairs (c : Counts) : List (String × Nat) :=
  [("residential", c.residential), ("retail", c.retail),
   ("industrial", c.industrial), ("commercial", c.commercial),
   ("park", c.park), ("forest", c.forest), ("water", c.water),
   ("farmland", c.farmland), ("road_major", c.road_major),
   ("road_minor", c.road_minor), ("building", c.building)]

/-- Position of a category key in the enumeration order (11 = not a key). -/
def catIdx (s : String) : Nat :=
  if s = "residential" then 0 else if s = "retail" then 1
  else if s = "industrial" then 2 else if s = "commercial" then 3
  else if s = "park" then 4 else if s = "forest" then 5
  else if s = "water" then 6 else if s = "farmland" then 7
  else if s = "road_major" then 8 else if s = "road_minor" then 9
  else if s = "building" then 10 else 11

/-- `derive_place_type` (`scene_card.py` lines 364–375): first-match-wins
ordered rule chain over the category tally. -/
def derive_place_type (c : Counts) : String :=
  if c.retail + c.commercial > 5 ∧ c.road_major ≥ 1 then "urban_commercial"
  else if c.residential + c.building > 20 ∧ c.road_minor > 3 then
    "urban_residential"
  else if c.park + c.forest > 5 ∧ c.building < 10 then "parkland"
  else if c.farmland > 3 ∧ c.building < 5 then "rural_farmland"
  else if c.industrial > 2 then "industrial"
  else "mixed_urban"

/-- Spec-side rule chain, written from the words of §4.2 of the spec,
for comparison with the source-derived `derive_place_type`. -/
def place_type_spec (c : Counts) : String :=
  if c.retail + c.commercial > 5 ∧ c.road_major ≥ 1 then "urban_commercial"
  else if c.residential + c.building > 20 ∧ c.road_minor > 3 then
    "urban_residential"
  else if c.park + c.forest > 5 ∧ c.building < 10 then "parkland"
  else if c.farmland > 3 ∧ c.building < 5 then "rural_farmland"
  else if c.industrial > 2 then "industrial"
  else "mixed_urban"

/-! ## Climate heuristic (`lookup_koppen_leafstate`, lines 459–480) -/

/-- `lookup_koppen_leafstate`: coarse Koppen code from the latitude belt and
leaf-on boolean from (code, day-of-year). -/
def lookup_koppen_leafstate (lat : ℚ) (doy : Nat) : String × Bool :=
  let abs_lat := |lat|
  let koppen : String :=
    if abs_lat < 10 then "Af"
    else if abs_lat < 23 then "Aw"
    else if abs_lat < 35 then "BSh"
    else if abs_lat < 55 then "Cfb"
    else "Dfb"
  let leaf_on : Bool :=
    if koppen = "Cfb" ∨ koppen = "Dfb" then decide (120 ≤ doy ∧ doy ≤ 300)
    else if koppen = "Af" ∨ koppen = "Aw" then true
    else decide (150 ≤ doy ∧ doy ≤ 280)
  (koppen, leaf_on)

/-- Spec-side climate code, from the words of §4.3. -/
def koppen_spec (lat : ℚ) : String :=
  if |lat| < 10 then "Af" else if |lat| < 23 then "Aw"
  else if |lat| < 35 then "BSh" else if |lat| < 55 then "Cfb" else "Dfb"

/-- Spec-side leaf-on rule, from the words of §4.3. -/
def leaf_on_spec (koppen : String) (doy : Nat) : Bool :=
  if koppen = "Cfb" ∨ koppen = "Dfb" then decide (120 ≤ doy ∧ doy ≤ 300)
  else if koppen = "Af" ∨ koppen = "Aw" then true
  else decide (150 ≤ doy ∧ doy ≤ 280)

/-! ## Solar flags and lighting phase -/

/-- The four elevation-thresholded flags of `sun_position_flags`
(lines 439–442). -/
structure SunFlags where
  is_day : Bool := false
  is_blue_hour : Bool := false
  is_golden_hour : Bool := false
  is_night : Bool := false
  deriving DecidableEq

/-- Flags from the solar elevation, exactly as computed at lines 439–442. -/
def sunFlagsOfElevation (el : ℚ) : SunFlags :=
  { is_day := decide (el > 0)
    is_blue_hour := decide (-6 ≤ el ∧ el ≤ 0)
    is_golden_hour := decide (0 < el ∧ el ≤ 10)
    is_night := decide (el < -6) }

/-- The renderer's phase resolution (lines 176–178): golden, else blue,
else day, else night. -/
def phaseOfFlags (f : SunFlags) : String :=
  if f.is_golden_hour then "golden"
  else if f.is_blue_hour then "blue"
  else if f.is_day then "day"
  else "night"

/-- The display phase as a function of elevation: the composition the
pipeline computes (flags at lines 439–442, resolution at lines 176–178). -/
def displayPhase (el : ℚ) : String := phaseOfFlags (sunFlagsOfElevation el)

/-- Spec-side phase, from the words of §4.1: golden wins on (0,10];
otherwise blue on [-6,0]; otherwise day if e>0; otherwise night. -/
def displayPhaseSpec (el : ℚ) : String :=
  if 0 < el ∧ el ≤ 10 then "golden"
  else if -6 ≤ el ∧ el ≤ 0 then "blue"
  else if 0 < el then "day"
  else "night"

/-! ## Azimuth / elevation bucketing -/

/-- The 8 compass points, in source order. -/
def dirsList : List String := ["N", "NE", "E", "SE", "S", "SW", "W", "NW"]

/-- The compass index `int(((a + 22.5) % 360) // 45)` (renderer line 185;
Python float `//` is a floor and the quotient is non-negative, so `int` is
the identity on it). -/
def azBucketIdx (az : ℚ) : ℤ := ⌊pyFMod (az + 45/2) 360 / 45⌋

/-- The renderer's inline azimuth bucket (line 185).  `List.getD` stands for
the Python list indexing; the index is proven in range below. -/
def az_dir_bucket (az : ℚ) : String := dirsList.getD (azBucketIdx az).toNat ""

/-- `_sun_buckets`'s `dir_bucket` (lines 99–104): `None` guard, then a
pre-normalization `a = a % 360`, then the same formula. -/
def dir_bucket (a : Option ℚ) : String :=
  match a with
  | none => "unknown"
  | some a0 =>
    let a1 := pyFMod a0 360
    dirsList.getD (azBucketIdx a1).toNat ""

/-- Elevation bucket (renderer line 186 and `_sun_buckets` line 107). -/
def elev_bucket (el : ℚ) : String :=
  if el ≥ 35 then "high"
  else if el ≥ 12 then "medium"
  else if el ≥ 0 then "low"
  else "below horizon"

/-! ## The normalized scene record

The dict produced by `scene_card` (lines 73–94), restricted to the fields
the renderer reads.  Python `None` (or an absent key read back with `.get`)
is `none`; the boolean flags are read only for truthiness, so an absent key
and `False` coincide and are both modelled by `false`.  An absent-or-`None`
numeric value and a present one are `Option ℚ`. -/

structure Geo where
  lat : Option ℚ := none
  lon : Option ℚ := none
  nearest_poi : Option String := none
  place_type : Option String := none
  landuse_counts : Option Counts := none
  deriving DecidableEq

structure TimeInfo where
  dt_local : Option String := none
  weekday : Option String := none
  is_holiday : Bool := false
  holiday_name : Option String := none
  deriving DecidableEq

structure SunInfo where
  azimuth_deg : Option ℚ := none
  elevation_deg : Option ℚ := none
  is_day : Bool := false
  is_blue_hour : Bool := false
  is_golden_hour : Bool := false
  is_night : Bool := false
  deriving DecidableEq

structure WeatherInfo where
  condition : Option String := none
  label : Option String := none
  temperature_c : Option ℚ := none
  temp_c : Option ℚ := none
  wind_mps : Option ℚ := none
  precip_mm : Option ℚ := none
  visibility_km : Option ℚ := none
  deriving DecidableEq

structure ClimateInfo where
  koppen : Option String := none
  leaf_on : Option Bool := none
  deriving DecidableEq

structure CameraInfo where
  heading_deg : Option ℚ := none
  hfov_deg : Option ℚ := none
  deriving DecidableEq

structure LocationInfo where
  city : Option String := none
  country_code : Option String := none
  deriving DecidableEq

structure Scene where
  geo : Geo := {}
  time : TimeInfo := {}
  sun : SunInfo := {}
  weather : WeatherInfo := {}
  climate : ClimateInfo := {}
  camera : CameraInfo := {}
  location : LocationInfo := {}
  deriving DecidableEq

/-! ## The renderer (`scene_card_to_template_prompt`, lines 110–251)

Each local variable of the Python function becomes a helper definition.
The single place the function can raise for string-shaped data is the tuple
unpacking of `dt_local.split("+")` (line 164), which raises `ValueError`
when `dt_local` holds two or more `+` characters; it is modelled with
`Except`. -/

/-- The `place_map` dict (lines 124–131). -/
def place_map (pt : String) : Option String :=
  if pt = "urban_residential" then some "residential neighborhood"
  else if pt = "urban_commercial" then some "commercial district"
  else if pt = "parkland" then some "parkland area"
  else if pt = "rural_farmland" then some "farmland"
  else if pt = "industrial" then some "industrial area"
  else if pt = "mixed_urban" then some "mixed urban area"
  else none

/-- The POI noise words of line 150. -/
def poiNoise : List String :=
  ["bus stop", "parking", "intersection", "roundabout", "residential area"]

/-- The lead line (lines 122–153): place phrase, admin area, useful POI. -/
def leadLine (s : Scene) : String :=
  let pt := pyLower ((s.geo.place_type.getD ""))
  let place_phrase := (place_map pt).getD "streetscape"
  let city := s.location.city
  let ccRaw := pyUpper (s.location.country_code.getD "")
  let cc : Option String := if ccRaw = "" then none else some ccRaw
  let adminBits : List String :=
    match pyTruthyS city, cc with
    | true, some c => ["in " ++ city.getD "" ++ ", " ++ c]
    | true, none => ["in " ++ city.getD ""]
    | false, some c => ["in " ++ c]
    | false, none => []
  let poiBits : List String :=
    match s.geo.nearest_poi with
    | none => []
    | some poi =>
      if poi = "" then []
      else
        let low := pyLower (pyStrip poi)
        if (low = "no notable poi" ∨ low = "unknown" ∨ low = "") then []
        else if poiNoise.any (fun b => pyInStr b low) then []
        else ["near " ++ poi]
  pyJoin ", " ([place_phrase] ++ adminBits ++ poiBits) ++ "."

/-- The shared fallback of the pretty-time computation (lines 169–174),
reached when no truthy `+`-offset was found: if the tail `dt_local[19:]`
has a `-`, render a negative offset, else keep `date_time`. -/
def timeTxtNoPlus (dt_local : String) (date_time : String) : String :=
  if containsChar '-' (pyDrop dt_local 19) then
    pyReplaceChar 'T' ' ' (pyTake dt_local 19) ++ " (UTC" ++ pyDrop dt_local 19 ++ ")"
  else date_time

/-- The pretty local-time text (lines 160–174); `ValueError` when the
2-tuple unpacking of `split("+")` fails. -/
def timeTxtE (t : TimeInfo) : Except String (Option String) :=
  match t.dt_local with
  | none => .ok none
  | some s =>
    if s = "" then .ok none
    else if containsChar '+' s then
      match pySplitChar '+' s with
      | [a, b] =>
        let date_time := pyReplaceChar 'T' ' ' a
        if b ≠ "" then .ok (some (date_time ++ " (UTC+" ++ b ++ ")"))
        else .ok (some (timeTxtNoPlus s date_time))
      | _ => .error "ValueError: too many values to unpack (expected 2)"
    else
      .ok (some (timeTxtNoPlus s (pyReplaceChar 'T' ' ' s)))

/-- The holiday text (line 157): `holiday_name or ("public holiday" if
is_holiday else None)`. -/
def holidayTxt (t : TimeInfo) : Option String :=
  pyOrS t.holiday_name (if t.is_holiday then some "public holiday" else none)

/-- The sun text (lines 179–189). -/
def sunTxt (sun : SunInfo) : String :=
  let phase := phaseOfFlags
    { is_day := sun.is_day, is_blue_hour := sun.is_blue_hour,
      is_golden_hour := sun.is_golden_hour, is_night := sun.is_night }
  match sun.azimuth_deg, sun.elevation_deg with
  | some az, some el =>
    phase ++ " (sun " ++ az_dir_bucket az ++ ", " ++ elev_bucket el ++ "; "
      ++ pyFmt0 az ++ "°/" ++ pyFmt0 el ++ "°)"
  | _, _ => phase

/-- The calendar text (lines 191–194). -/
def calTxt (t : TimeInfo) : Option String :=
  let bits : List String :=
    (match holidayTxt t with
     | some h => if h ≠ "" then [h] else []
     | none => []) ++
    (match t.weekday with
     | some w => if w ≠ "" then ["weekday " ++ w] else []
     | none => [])
  if bits = [] then none else some (pyJoin ", " bits)

/-- The time line (lines 196–200), given the already-computed pretty time. -/
def timeLine (timeTxt : Option String) (t : TimeInfo) (sun : SunInfo) : String :=
  let bits : List String :=
    (match timeTxt with
     | some tt => if tt ≠ "" then ["Local time: " ++ tt] else []
     | none => []) ++
    (match calTxt t with
     | some c => if c ≠ "" then [c] else []
     | none => []) ++
    (let st := sunTxt sun; if st ≠ "" then [st] else [])
  if bits = [] then "" else pyJoin " — " bits ++ "."

/-- Stable descending insertion used to model CPython's stable
`sorted(keys, key=counts.get, reverse=True)`: an element passes every
already-placed element of greater-or-equal count (preserving the original
order of ties) and lands before the first strictly smaller one. -/
def insDesc (x : String × Nat) : List (String × Nat) → List (String × Nat)
  | [] => [x]
  | y :: ys => if y.2 < x.2 then x :: y :: ys else y :: insDesc x ys

/-- Stable sort by count descending (model of line 204's `sorted`). -/
def pySortedDesc (l : List (String × Nat)) : List (String × Nat) :=
  l.foldl (fun acc x => insDesc x acc) []

/-- The layout line (lines 203–205). -/
def layoutLine (g : Geo) : String :=
  match g.landuse_counts with
  | none => ""
  | some c =>
    let top := pyJoin ", " (((pySortedDesc (landusePairs c)).take 3).map Prod.fst)
    if top ≠ "" then "Layout: " ++ top ++ "." else ""

/-- Weather condition (line 208): `wx.get("condition") or wx.get("label")`. -/
def wxCondition (wx : WeatherInfo) : Option String := pyOrS wx.condition wx.label

/-- `wx.get("temperature_c", wx.get("temp_c"))` (line 209). -/
def wxTemp (wx : WeatherInfo) : Option ℚ :=
  match wx.temperature_c with
  | some v => some v
  | none => wx.temp_c

/-- The weather line (lines 214–220). -/
def weatherLine (full : Bool) (wx : WeatherInfo) : String :=
  let bits : List String :=
    (match wxCondition wx with
     | some c => if c ≠ "" then [c] else []
     | none => []) ++
    (match full, wxTemp wx with
     | true, some v => [pyFmt0 v ++ "°C"]
     | _, _ => []) ++
    (match full, wx.wind_mps with
     | true, some v => ["wind " ++ pyFmt0 v ++ " m/s"]
     | _, _ => []) ++
    (match full, wx.precip_mm with
     | true, some v => ["precip " ++ pyFmt1 v ++ " mm"]
     | _, _ => []) ++
    (match full, wx.visibility_km with
     | true, some v => ["visibility " ++ pyFmt0 v ++ " km"]
     | _, _ => [])
  if bits = [] then "" else "Weather: " ++ pyJoin ", " bits ++ "."

/-- The climate line (lines 222–229, full mode only). -/
def climateLine (full : Bool) (clim : ClimateInfo) : String :=
  if full then
    let bits : List String :=
      (match clim.koppen with
       | some k => if k ≠ "" then [k] else []
       | none => []) ++
      (match clim.leaf_on with
       | some b => [if b then "leaf-on" else "leaf-off"]
       | none => [])
    if bits = [] then "" else "Climate: " ++ pyJoin ", " bits ++ "."
  else ""

/-- The camera line (lines 231–237, full mode only). -/
def cameraLine (full : Bool) (cam : CameraInfo) : String :=
  if full then
    let bits : List String :=
      (match cam.heading_deg with
       | some h => ["heading " ++ pyFmt0 h ++ "°"]
       | none => []) ++
      (match cam.hfov_deg with
       | some v => ["hfov " ++ pyFmt0 v ++ "°"]
       | none => [])
    if bits = [] then "" else "Camera: " ++ pyJoin ", " bits ++ "."
  else ""

/-- The fixed style suffix (line 240). -/
def styleTag : String :=
  "Photorealistic street-level photo, 35mm lens, natural colors."

/-- The truthy parts joined at line 248 (compact) / line 251 (full), given
the already-computed pretty time. -/
def partsAll (s : Scene) (full : Bool) (timeTxt : Option String) : List String :=
  if full then
    [leadLine s, timeLine timeTxt s.time s.sun, layoutLine s.geo,
     weatherLine true s.weather, climateLine true s.climate,
     cameraLine true s.camera, styleTag].filter (fun p => p ≠ "")
  else
    ([leadLine s, timeLine timeTxt s.time s.sun] ++
     (match wxCondition s.weather with
      | some c => if c ≠ "" then ["Weather: " ++ c ++ "."] else []
      | none => []) ++
     [styleTag]).filter (fun p => p ≠ "")

/-- The renderer body as a function of the scene record it reads (the dict
bound to `norm`) and the `full` flag. -/
def renderBody (s : Scene) (full : Bool) : Except String String :=
  (timeTxtE s.time).map fun tt => pyStrip (pyJoin " " (partsAll s full tt))

/-- `scene_card_to_template_prompt` (lines 110–251) as it actually executes:
the parameter `card` is bound but the body reads the module-global `norm`
(line 114 and onward), so the result is a function of that global.  The
global binding is `globalNorm`; when no global `norm` is bound, the first
read raises `NameError`. -/
def scene_card_to_template_prompt (card : Scene) (full : Bool)
    (globalNorm : Option Scene) : Except String String :=
  match globalNorm, card with
  | none, _ => .error "NameError: name norm is not defined"
  | some n, _ => renderBody n full

/-! ## Timezone handling and the solar calculator (`to_local`,
`sun_position_flags`, lines 394–451)

A Python `datetime` is modelled as a wall-clock value (minutes, relative to
an arbitrary epoch) together with an optional fixed UTC offset in minutes
(`tzinfo`; `none` means naive).  The `zoneinfo` database lookup is an
external collaborator and is modelled as an oracle `zoneOff : String → ℤ`
giving the offset of a zone name (DST transitions are immaterial to the
claims).  The `astral` azimuth/elevation computations are likewise external
and enter as oracle values. -/

structure PyDatetime where
  wall : ℤ
  tz : Option ℤ := none
  deriving DecidableEq

/-- `to_local` (lines 394–403): a naive input is silently re-tagged as UTC
(`dt_utc.replace(tzinfo=ZoneInfo("UTC"))`), then converted with
`astimezone(ZoneInfo(tzname))`.  Always returns an aware datetime. -/
def to_local (zoneOff : String → ℤ) (dt_utc : PyDatetime)
    (tzname : String) : PyDatetime :=
  let dt1 : PyDatetime :=
    if dt_utc.tz = none then { dt_utc with tz := some 0 } else dt_utc
  let o : ℤ := dt1.tz.getD 0
  let t : ℤ := zoneOff tzname
  { wall := dt1.wall - o + t, tz := some t }

/-- The record returned by `sun_position_flags` (lines 444–451). -/
structure SunRec where
  azimuth_deg : ℚ
  elevation_deg : ℚ
  flags : SunFlags
  deriving DecidableEq

/-- `sun_position_flags` (lines 426–451): raises `ValueError` when
`dt_local` is naive; otherwise returns the astral azimuth/elevation (oracle
arguments `astral_az`, `astral_el`) and the elevation-thresholded flags. -/
def sun_position_flags (astral_az astral_el : ℚ)
    (dt_local : PyDatetime) : Except String SunRec :=
  if dt_local.tz = none then
    .error "dt_local must be timezone-aware (has tzinfo)."
  else
    .ok { azimuth_deg := astral_az, elevation_deg := astral_el,
          flags := sunFlagsOfElevation astral_el }

/-- The solar step of the pipeline `scene_card` (lines 61–65): the input
instant goes through `to_local` before reaching `sun_position_flags`. -/
def scene_card_sun (zoneOff : String → ℤ) (astral_az astral_el : ℚ)
    (dt_utc : PyDatetime) (tzname : String) : Except String SunRec :=
  sun_position_flags astral_az astral_el (to_local zoneOff dt_utc tzname)

/-! ## Calendar derivation (`derive_calendar`, lines 406–424)

The weekday/day-of-year extraction (`strftime`) and the calendar date are
standard-library facts of the local instant and enter as a pre-extracted
`LocalDate`.  The `holidays` collaborator is an oracle
`String → String → Except Unit (Option String)`: country code and date key
to either a lookup outcome (`some name`, or `none` for no holiday) or a
failure (`ImportError`/any exception caught by the bare `except`). -/

structure LocalDate where
  weekday : String
  doy : Nat
  dateKey : String
  deriving DecidableEq

/-- The crude country inference of line 413. -/
def derive_country (lat lon : ℚ) : String :=
  if -10 ≤ lon ∧ lon ≤ 30 ∧ 35 ≤ lat ∧ lat ≤ 60 then "FR" else "US"

/-- The record returned by `derive_calendar` on success. -/
structure CalRec where
  weekday : String
  doy : Nat
  is_holiday : Bool
  holiday_name : Option String
  deriving DecidableEq

/-- `derive_calendar` (lines 406–424).  On a successful lookup, `name` is
bound and truthiness (`if name:`) sets `is_holiday`.  When the `try` block
raises, the `except` branch sets only `is_holiday = False`; the local
`name` is then still unbound, so the `return` statement's
`"holiday_name": name` raises `NameError`. -/
def derive_calendar (holidayLookup : String → String → Except Unit (Option String))
    (d : LocalDate) (lat lon : ℚ) : Except String CalRec :=
  let country := derive_country lat lon
  match holidayLookup country d.dateKey with
  | .ok name =>
    .ok { weekday := d.weekday, doy := d.doy,
          is_holiday := (match name with | some s => s ≠ "" | none => false),
          holiday_name := name }
  | .error _ => .error "NameError: name name is not defined"

/-! ## Theorems -/

/-- C2: for every elevation value `e`, the resolved display lighting phase
(the renderer's resolution at lines 176–178 of the flags computed at lines
439–442) is a total function of `e` with precedence golden > blue > day >
night — golden on (0,10], else blue on [-6,0], else day for e>0, else
night — and the boundary values resolve to exactly one phase each:
e=10 to golden, e=0 to blue, e=-6 to blue. -/
theorem c2_display_phase (e : ℚ) :
    displayPhase e = displayPhaseSpec e ∧
    displayPhase 10 = "golden" ∧ displayPhase 0 = "blue" ∧
    displayPhase (-6) = "blue" := by
  refine ⟨?_, by decide, by decide, by decide⟩
  simp only [displayPhase, displayPhaseSpec, phaseOfFlags, sunFlagsOfElevation,
    decide_eq_true_eq, gt_iff_lt]

/-- C5: place-type derivation is the first-match-wins ordered rule chain of
§4.2 with exactly those rules and thresholds, and a tally satisfying both
rule 1 and rule 2 is classified urban_commercial; the function is total and
deterministic on tallies (it is a plain function of the tally). -/
theorem c5_place_type_rules (c : Counts) :
    derive_place_type c = place_type_spec c ∧
    ((c.retail + c.commercial > 5 ∧ c.road_major ≥ 1) →
      (c.residential + c.building > 20 ∧ c.road_minor > 3) →
      derive_place_type c = "urban_commercial") := by
  refine ⟨rfl, fun h1 _ => ?_⟩
  unfold derive_place_type
  rw [if_pos h1]

/-- Witness for C5 at a tally satisfying both rule 1 and rule 2. -/
theorem c5_place_type_rules_witness :
    derive_place_type
      { residential := 21, retail := 6, road_major := 1, road_minor := 4 }
      = "urban_commercial" :=
  (c5_place_type_rules _).2 (by decide) (by decide)

/-- C6: the climate heuristic is a pure function of absolute latitude and
day-of-year with the banded Koppen code Af/Aw/BSh/Cfb/Dfb of §4.3 and the
leaf-on rule (Cfb/Dfb on 120–300, Af/Aw always, BSh on 150–280); at
latitude 48 (code Cfb), doy 119 gives leaf_on false, 120 true, 300 true,
301 false. -/
theorem c6_climate_heuristic (lat : ℚ) (doy : Nat) :
    (lookup_koppen_leafstate lat doy).1 = koppen_spec lat ∧
    (lookup_koppen_leafstate lat doy).2 =
      leaf_on_spec (koppen_spec lat) doy ∧
    (lookup_koppen_leafstate 48 119).1 = "Cfb" ∧
    (lookup_koppen_leafstate 48 119).2 = false ∧
    (lookup_koppen_leafstate 48 120).2 = true ∧
    (lookup_koppen_leafstate 48 300).2 = true ∧
    (lookup_koppen_leafstate 48 301).2 = false := by
  exact ⟨rfl, rfl, by decide, by decide, by decide, by decide, by decide⟩

/-! ### Floating modulus facts for the azimuth bucket -/

theorem pyFMod_nonneg (a : ℚ) {m : ℚ} (hm : 0 < m) : 0 ≤ pyFMod a m := by
  have h1 : (⌊a / m⌋ : ℚ) ≤ a / m := Int.floor_le _
  have h2 : m * (a / m) = a := mul_div_cancel₀ a (ne_of_gt hm)
  have h3 : m * (⌊a / m⌋ : ℚ) ≤ m * (a / m) :=
    mul_le_mul_of_nonneg_left h1 (le_of_lt hm)
  unfold pyFMod
  linarith

theorem pyFMod_lt (a : ℚ) {m : ℚ} (hm : 0 < m) : pyFMod a m < m := by
  have h1 : a / m < (⌊a / m⌋ : ℚ) + 1 := Int.lt_floor_add_one _
  have h2 : m * (a / m) = a := mul_div_cancel₀ a (ne_of_gt hm)
  have h3 : m * (a / m) < m * ((⌊a / m⌋ : ℚ) + 1) :=
    (mul_lt_mul_left hm).mpr h1
  unfold pyFMod
  nlinarith

theorem pyFMod_sub_mul_int (a : ℚ) (k : ℤ) {m : ℚ} (hm : m ≠ 0) :
    pyFMod (a - m * k) m = pyFMod a m := by
  unfold pyFMod
  have hq : (a - m * k) / m = a / m - k := by
    field_simp
  rw [hq, Int.floor_sub_int]
  push_cast
  ring

theorem azBucketIdx_range (a : ℚ) : 0 ≤ azBucketIdx a ∧ azBucketIdx a < 8 := by
  have h0 : (0:ℚ) < 360 := by norm_num
  have hnn := pyFMod_nonneg (a + 45/2) h0
  have hlt := pyFMod_lt (a + 45/2) h0
  constructor
  · exact Int.floor_nonneg.mpr (by positivity)
  · have : pyFMod (a + 45/2) 360 / 45 < 8 := by
      rw [div_lt_iff₀ (by norm_num : (0:ℚ) < 45)]
      linarith
    exact Int.floor_lt.mpr (by exact_mod_cast this)

theorem azBucketIdx_zero : azBucketIdx 0 = 0 := by
  norm_num [azBucketIdx, pyFMod]

theorem azBucketIdx_fortyfour : azBucketIdx 44 = 1 := by
  norm_num [azBucketIdx, pyFMod]

theorem azBucketIdx_fortysix : azBucketIdx 46 = 1 := by
  norm_num [azBucketIdx, pyFMod]

/-- C7 counterexample: the claim's example "azimuth=44 maps to N" is false
on the code — the renderer's bucket (line 185) sends azimuth 44 to "NE"
(floor((44+22.5)/45) = 1). -/
theorem c7_counterexample :
    az_dir_bucket 44 ≠ "N" ∧ az_dir_bucket 44 = "NE" := by
  rw [az_dir_bucket, azBucketIdx_fortyfour]
  decide

/-- C7 (amended): azimuth is bucketed by index
floor(((azimuth + 22.5) mod 360) / 45) into N,NE,E,SE,S,SW,W,NW; the index
is always in [0,8), the renderer's inline bucket (line 185) agrees with
`_sun_buckets`'s `dir_bucket` (lines 99–104, which pre-normalizes with
`a % 360`), and azimuth 0 maps to "N", 44 to "NE", 46 to "NE". -/
theorem c7_azimuth_bucketing (a : ℚ) :
    az_dir_bucket a = dir_bucket (some a) ∧
    (0 ≤ azBucketIdx a ∧ azBucketIdx a < 8) ∧
    az_dir_bucket 0 = "N" ∧ az_dir_bucket 44 = "NE" ∧
    az_dir_bucket 46 = "NE" := by
  refine ⟨?_, azBucketIdx_range a,
    by rw [az_dir_bucket, azBucketIdx_zero]; decide,
    by rw [az_dir_bucket, azBucketIdx_fortyfour]; decide,
    by rw [az_dir_bucket, azBucketIdx_fortysix]; decide⟩
  have hd : dir_bucket (some a) = dirsList.getD (azBucketIdx (pyFMod a 360)).toNat "" := rfl
  have key : azBucketIdx (pyFMod a 360) = azBucketIdx a := by
    unfold azBucketIdx
    have h : pyFMod a 360 + 45/2 = (a + 45/2) - 360 * (⌊a / 360⌋ : ℤ) := by
      unfold pyFMod; ring
    rw [h, pyFMod_sub_mul_int _ _ (by norm_num : (360:ℚ) ≠ 0)]
  rw [az_dir_bucket, hd, key]

/-! ### Concrete scenes for closed evaluations -/

/-- A scene with every optional field absent. -/
def sceneA : Scene := {}

/-- Like `sceneA` but classified as parkland. -/
def sceneB : Scene := { geo := { place_type := some "parkland" } }

/-- C1 (the claim is refuted by the code): the string returned by
`scene_card_to_template_prompt` is NOT a function of its `card` argument —
the body reads the module-global `norm` (line 114 onward), so identical
arguments under different globals yield different strings, different
arguments under one global yield the identical string, and with no global
`norm` bound every call raises `NameError`. -/
theorem c1_renderer_reads_global :
    scene_card_to_template_prompt sceneA false (some sceneB)
      = scene_card_to_template_prompt sceneB false (some sceneB) ∧
    scene_card_to_template_prompt sceneA false (some sceneA)
      ≠ scene_card_to_template_prompt sceneA false (some sceneB) ∧
    scene_card_to_template_prompt sceneA false none
      = .error "NameError: name norm is not defined" := by
  refine ⟨rfl, ?_, rfl⟩
  have h1 : scene_card_to_template_prompt sceneA false (some sceneA) =
      .ok ("streetscape. night. " ++ styleTag) := rfl
  have h2 : scene_card_to_template_prompt sceneA false (some sceneB) =
      .ok ("parkland area. night. " ++ styleTag) := rfl
  rw [h1, h2]
  intro h
  injection h with h'
  exact absurd h' (by decide)

/-- C3 counterexample: the claim "for every naive input instant,
normalization fails loudly" is false at the concrete naive instant
`naiveNoon`: `to_local` silently re-tags it as UTC and the pipeline's solar
step succeeds. -/
theorem c3_counterexample :
    to_local (fun _ => 60) { wall := 0, tz := none } "Europe/Paris"
      = { wall := 60, tz := some 60 } ∧
    scene_card_sun (fun _ => 60) 180 (-10) { wall := 0, tz := none }
        "Europe/Paris"
      = .ok { azimuth_deg := 180, elevation_deg := -10,
              flags := { is_day := false, is_blue_hour := false,
                         is_golden_hour := false, is_night := true } } := by
  constructor
  · rfl
  · have : sunFlagsOfElevation (-10) =
        { is_day := false, is_blue_hour := false,
          is_golden_hour := false, is_night := true } := by decide
    simp [scene_card_sun, sun_position_flags, to_local, this]

/-- C3 (amended): a naive instant passed directly to the solar calculator
`sun_position_flags` is a fatal configuration error (it raises
`ValueError`); but the pipeline's `to_local` silently substitutes UTC for a
naive input before the solar step, so normalization through `scene_card`
never fails on a naive instant — the naive case is silently defaulted, not
surfaced. -/
theorem c3_naive_handling (dt : PyDatetime) (zoneOff : String → ℤ)
    (tzname : String) (az el : ℚ) :
    (dt.tz = none →
      sun_position_flags az el dt
        = .error "dt_local must be timezone-aware (has tzinfo).") ∧
    (to_local zoneOff dt tzname).tz = some (zoneOff tzname) ∧
    ∃ r, scene_card_sun zoneOff az el dt tzname = .ok r := by
  refine ⟨fun h => by simp [sun_position_flags, h], rfl, ?_⟩
  exact ⟨{ azimuth_deg := az, elevation_deg := el,
           flags := sunFlagsOfElevation el }, rfl⟩

/-- Witness for C3's amended theorem at the concrete naive instant. -/
theorem c3_naive_handling_witness :
    sun_position_flags 180 (-10) { wall := 0, tz := none }
      = .error "dt_local must be timezone-aware (has tzinfo)." :=
  (c3_naive_handling { wall := 0, tz := none } (fun _ => 60) "Europe/Paris"
    180 (-10)).1 rfl

/-- C4 (the claim is right, the code is wrong): when the holiday
collaborator fails, `derive_calendar` raises `NameError` instead of
returning a record with `is_holiday = False` — the `except` branch never
binds the local `name` that the `return` statement reads.  When the lookup
merely returns nothing, the non-fatal default record is produced. -/
theorem c4_holiday_failure_raises :
    derive_calendar (fun _ _ => .error ()) ⟨"Thu", 359, "2025-12-25"⟩
        (4886/100) (229/100)
      = .error "NameError: name name is not defined" ∧
    derive_calendar (fun _ _ => .ok none) ⟨"Thu", 359, "2025-12-25"⟩
        (4886/100) (229/100)
      = .ok { weekday := "Thu", doy := 359, is_holiday := false,
              holiday_name := none } := ⟨rfl, rfl⟩

/-! ### The stable descending sort of line 204 -/

/-- The strict order "greater count, or equal count and earlier category":
the unique order CPython's stable `sorted(..., reverse=True)` realizes on
the tally keys. -/
def KeyLt (a b : String × Nat) : Prop :=
  b.2 < a.2 ∨ (a.2 = b.2 ∧ catIdx a.1 < catIdx b.1)

theorem insDesc_perm (x : String × Nat) (acc : List (String × Nat)) :
    List.Perm (insDesc x acc) (x :: acc) := by
  induction acc with
  | nil => simp [insDesc]
  | cons y ys ih =>
    rw [insDesc]
    split
    · exact List.Perm.refl _
    · exact (ih.cons y).trans (List.Perm.swap x y ys)

theorem pySortedDesc_perm_aux (l : List (String × Nat)) :
    ∀ acc, List.Perm (List.foldl (fun acc x => insDesc x acc) acc l)
      (l ++ acc) := by
  induction l with
  | nil => intro acc; simp
  | cons x xs ih =>
    intro acc
    simp only [List.foldl_cons, List.cons_append]
    exact ((ih (insDesc x acc)).trans
      (List.Perm.append_left xs (insDesc_perm x acc))).trans
      List.perm_middle

theorem pySortedDesc_perm (l : List (String × Nat)) :
    List.Perm (pySortedDesc l) l := by
  have h := pySortedDesc_perm_aux l []
  simpa [pySortedDesc] using h

theorem insDesc_pairwise (x : String × Nat) :
    ∀ acc : List (String × Nat), acc.Pairwise KeyLt →
      (∀ y ∈ acc, catIdx y.1 < catIdx x.1) →
      (insDesc x acc).Pairwise KeyLt := by
  intro acc
  induction acc with
  | nil => intro _ _; simp [insDesc]
  | cons y ys ih =>
    intro hacc hidx
    rcases List.pairwise_cons.mp hacc with ⟨hy, hys⟩
    rw [insDesc]
    split
    case isTrue h =>
      refine List.pairwise_cons.mpr ⟨?_, hacc⟩
      intro z hz
      rcases List.mem_cons.mp hz with rfl | hz2
      · exact Or.inl h
      · rcases hy z hz2 with h2 | ⟨h2, _⟩
        · exact Or.inl (h2.trans h)
        · exact Or.inl (h2 ▸ h)
    case isFalse h =>
      refine List.pairwise_cons.mpr
        ⟨?_, ih hys (fun z hz => hidx z (List.mem_cons_of_mem _ hz))⟩
      intro z hz
      rcases List.mem_cons.mp ((insDesc_perm x ys).mem_iff.mp hz) with rfl | hz2
      · rcases Nat.lt_or_ge z.2 y.2 with h2 | h2
        · exact Or.inl h2
        · have hle : z.2 ≤ y.2 := Nat.le_of_not_lt h
          exact Or.inr ⟨Nat.le_antisymm h2 hle,
            hidx y (List.mem_cons_self y ys)⟩
      · exact hy z hz2

theorem pySortedDesc_pairwise_aux :
    ∀ (l acc : List (String × Nat)), acc.Pairwise KeyLt →
      (∀ y ∈ acc, ∀ x ∈ l, catIdx y.1 < catIdx x.1) →
      l.Pairwise (fun a b => catIdx a.1 < catIdx b.1) →
      (List.foldl (fun acc x => insDesc x acc) acc l).Pairwise KeyLt := by
  intro l
  induction l with
  | nil => intro acc h _ _; simpa using h
  | cons x xs ih =>
    intro acc hacc hcross hl
    rcases List.pairwise_cons.mp hl with ⟨hx, hxs⟩
    simp only [List.foldl_cons]
    refine ih (insDesc x acc) ?_ ?_ hxs
    · exact insDesc_pairwise x acc hacc
        (fun y hy => hcross y hy x (List.mem_cons_self x xs))
    · intro y hy z hz
      rcases List.mem_cons.mp ((insDesc_perm x acc).mem_iff.mp hy) with rfl | hy2
      · exact hx z hz
      · exact hcross y hy2 z (List.mem_cons_of_mem _ hz)

theorem pairwise_on_fst (l : List (String × Nat))
    (h : (l.map Prod.fst).Pairwise (fun a b => catIdx a < catIdx b)) :
    l.Pairwise (fun a b => catIdx a.1 < catIdx b.1) := by
  induction l with
  | nil => exact List.Pairwise.nil
  | cons x xs ih =>
    simp only [List.map_cons] at h
    rcases List.pairwise_cons.mp h with ⟨hx, hxs⟩
    refine List.pairwise_cons.mpr ⟨?_, ih hxs⟩
    intro z hz
    exact hx z.1 (List.mem_map_of_mem _ hz)

theorem landusePairs_idx_pairwise (c : Counts) :
    (landusePairs c).Pairwise (fun a b => catIdx a.1 < catIdx b.1) := by
  refine pairwise_on_fst _ ?_
  have h : (landusePairs c).map Prod.fst = catKeys := rfl
  rw [h]
  decide

theorem pySortedDesc_pairwise (c : Counts) :
    (pySortedDesc (landusePairs c)).Pairwise KeyLt :=
  pySortedDesc_pairwise_aux (landusePairs c) [] List.Pairwise.nil
    (by simp) (landusePairs_idx_pairwise c)

theorem catKeys_not_empty : ∀ s ∈ catKeys, s ≠ "" := by decide

theorem sorted_fst_mem_catKeys (c : Counts) {a : String × Nat}
    (ha : a ∈ pySortedDesc (landusePairs c)) : a.1 ∈ catKeys := by
  have h1 : a ∈ landusePairs c :=
    (pySortedDesc_perm (landusePairs c)).mem_iff.mp ha
  have h2 : a.1 ∈ (landusePairs c).map Prod.fst := List.mem_map_of_mem _ h1
  simpa [landusePairs, catKeys] using h2

theorem string_append_ne_empty {s : String} (t : String) (h : s ≠ "") :
    s ++ t ≠ "" := by
  intro he
  apply h
  have hd : s.data ++ t.data = [] := by
    have := congrArg String.data he
    simpa [String.data_append] using this
  rcases List.append_eq_nil.mp hd with ⟨h1, _⟩
  cases s
  simp_all

theorem pyJoin_cons_ne_empty (sep : String) (p : String)
    (ps : List String) (hp : p ≠ "") : pyJoin sep (p :: ps) ≠ "" := by
  cases ps with
  | nil => simpa [pyJoin] using hp
  | cons q qs =>
    show p ++ sep ++ pyJoin sep (q :: qs) ≠ ""
    exact string_append_ne_empty _ (string_append_ne_empty _ hp)

theorem pySortedDesc_landuse_shape (c : Counts) :
    ∃ a b d t, pySortedDesc (landusePairs c) = a :: b :: d :: t := by
  have hlen : (pySortedDesc (landusePairs c)).length = 11 :=
    ((pySortedDesc_perm (landusePairs c)).length_eq).trans rfl
  rcases hs : pySortedDesc (landusePairs c) with _ | ⟨a, _ | ⟨b, _ | ⟨d, t⟩⟩⟩ <;>
    rw [hs] at hlen <;> simp at hlen
  exact ⟨a, b, d, t, rfl⟩

theorem layoutLine_eq (g : Geo) (c : Counts) (h : g.landuse_counts = some c) :
    layoutLine g =
      (if pyJoin ", " (((pySortedDesc (landusePairs c)).take 3).map Prod.fst)
          ≠ "" then
        "Layout: " ++
          pyJoin ", " (((pySortedDesc (landusePairs c)).take 3).map Prod.fst)
          ++ "."
      else "") := by
  unfold layoutLine
  rw [h]

/-- C9: the full-mode layout line lists the top-3 categories of the tally:
the keys are ordered by the stable descending sort of line 204, which is a
permutation of the 11 category/count pairs strictly ordered by count
descending with ties broken by the original category enumeration order
(`KeyLt` is total and antisymmetric on the 11 distinct keys, so that
ordered permutation is unique), and the line is "Layout: " followed by the
first three keys of that order. -/
theorem c9_layout_top3 (c : Counts) :
    List.Perm (pySortedDesc (landusePairs c)) (landusePairs c) ∧
    (pySortedDesc (landusePairs c)).Pairwise KeyLt ∧
    layoutLine { landuse_counts := some c } =
      "Layout: " ++
        pyJoin ", " (((pySortedDesc (landusePairs c)).take 3).map Prod.fst)
        ++ "." := by
  refine ⟨pySortedDesc_perm _, pySortedDesc_pairwise c, ?_⟩
  obtain ⟨a, b, d, t, hs⟩ := pySortedDesc_landuse_shape c
  have ha : a.1 ≠ "" := catKeys_not_empty _ (sorted_fst_mem_catKeys c
    (by rw [hs]; exact List.mem_cons_self _ _))
  have htop : pyJoin ", "
      (((pySortedDesc (landusePairs c)).take 3).map Prod.fst) ≠ "" := by
    rw [hs]
    show pyJoin ", " [a.1, b.1, d.1] ≠ ""
    exact pyJoin_cons_ne_empty _ _ _ ha
  rw [layoutLine_eq _ c rfl, if_pos htop]

def zeroCounts : Counts := {}

theorem mem_partsAll_full (s : Scene) (tt : Option String)
    (hne : layoutLine s.geo ≠ "") : layoutLine s.geo ∈ partsAll s true tt := by
  unfold partsAll
  refine List.mem_filter.mpr ⟨?_, by simpa using hne⟩
  simp

/-- C10: whenever the scene's landuse_counts mapping is present (and hence
carries all 11 category keys, as the classifier always produces), full-mode
rendering emits a non-empty "Layout:" line naming exactly 3 category keys —
zero-count categories included — and the all-zero tally yields the first
three categories of the enumeration. -/
theorem c10_layout_always (s : Scene) (c : Counts)
    (h : s.geo.landuse_counts = some c) :
    (∃ n1 n2 n3, n1 ∈ catKeys ∧ n2 ∈ catKeys ∧ n3 ∈ catKeys ∧
      layoutLine s.geo = "Layout: " ++ pyJoin ", " [n1, n2, n3] ++ ".") ∧
    layoutLine s.geo ≠ "" ∧
    (∀ tt, layoutLine s.geo ∈ partsAll s true tt) ∧
    layoutLine { landuse_counts := some zeroCounts } =
      "Layout: residential, retail, industrial." := by
  obtain ⟨a, b, d, t, hs⟩ := pySortedDesc_landuse_shape c
  have ha : a.1 ∈ catKeys := sorted_fst_mem_catKeys c (by rw [hs]; simp)
  have hb : b.1 ∈ catKeys := sorted_fst_mem_catKeys c (by rw [hs]; simp)
  have hd : d.1 ∈ catKeys := sorted_fst_mem_catKeys c (by rw [hs]; simp)
  have ha1 : a.1 ≠ "" := catKeys_not_empty _ ha
  have hline : layoutLine s.geo =
      "Layout: " ++ pyJoin ", " [a.1, b.1, d.1] ++ "." := by
    rw [layoutLine_eq s.geo c h, hs]
    show (if pyJoin ", " [a.1, b.1, d.1] ≠ "" then
        "Layout: " ++ pyJoin ", " [a.1, b.1, d.1] ++ "." else "") = _
    rw [if_pos (pyJoin_cons_ne_empty _ _ _ ha1)]
  have hne : layoutLine s.geo ≠ "" := by
    rw [hline]
    exact string_append_ne_empty _
      (string_append_ne_empty _ (by decide : ("Layout: " : String) ≠ ""))
  exact ⟨⟨a.1, b.1, d.1, ha, hb, hd, hline⟩, hne,
    fun tt => mem_partsAll_full s tt hne, rfl⟩

/-- Witness for C10 at the all-zero tally. -/
theorem c10_layout_always_witness :
    layoutLine ({ geo := { landuse_counts := some zeroCounts } } : Scene).geo
      ≠ "" :=
  (c10_layout_always { geo := { landuse_counts := some zeroCounts } }
    zeroCounts rfl).2.1

/-! ### Totality of the renderer on well-formed scenes -/

theorem splitOnCharL_ne_nil (sep : Char) (l : List Char) :
    splitOnCharL sep l ≠ [] := by
  cases l with
  | nil => simp [splitOnCharL]
  | cons c cs =>
    simp only [splitOnCharL]
    rcases splitOnCharL sep cs with _ | ⟨h1, t⟩ <;>
      by_cases hc : c = sep <;> simp [hc]

theorem splitOnCharL_length (sep : Char) (l : List Char) :
    (splitOnCharL sep l).length = l.count sep + 1 := by
  induction l with
  | nil => simp [splitOnCharL]
  | cons c cs ih =>
    simp only [splitOnCharL]
    rcases h : splitOnCharL sep cs with _ | ⟨h1, t⟩
    · exact absurd h (splitOnCharL_ne_nil sep cs)
    · rw [h] at ih
      by_cases hc : c = sep <;> simp [hc, List.count_cons] at ih ⊢ <;> omega

theorem timeTxtE_ok (t : TimeInfo)
    (h : ∀ str, t.dt_local = some str → str.data.count '+' ≤ 1) :
    ∃ v, timeTxtE t = .ok v := by
  rcases ht : t.dt_local with _ | s
  · exact ⟨none, by simp [timeTxtE, ht]⟩
  · by_cases hse : s = ""
    · exact ⟨none, by simp [timeTxtE, ht, hse]⟩
    · by_cases hcont : containsChar '+' s
      · have hm : '+' ∈ s.data := by simpa [containsChar] using hcont
        have hle := h s ht
        have hc1 : s.data.count '+' = 1 := by
          have h0 : s.data.count '+' ≠ 0 :=
            fun h0 => (List.count_eq_zero.mp h0) hm
          omega
        have hlen : (pySplitChar '+' s).length = 2 := by
          simp [pySplitChar, splitOnCharL_length, hc1]
        obtain ⟨a, b, hab⟩ : ∃ a b, pySplitChar '+' s = [a, b] := by
          rcases he : pySplitChar '+' s with _ | ⟨a, _ | ⟨b, _ | ⟨x, t2⟩⟩⟩ <;>
            rw [he] at hlen <;> simp at hlen
          exact ⟨a, b, rfl⟩
        by_cases hb : b = ""
        · exact ⟨some (timeTxtNoPlus s (pyReplaceChar 'T' ' ' a)),
            by simp [timeTxtE, ht, hse, hcont, hab, hb]⟩
        · exact ⟨some (pyReplaceChar 'T' ' ' a ++ " (UTC+" ++ b ++ ")"),
            by simp [timeTxtE, ht, hse, hcont, hab, hb]⟩
      · exact ⟨some (timeTxtNoPlus s (pyReplaceChar 'T' ' ' s)),
          by simp [timeTxtE, ht, hse, hcont]⟩

theorem partsAll_no_empty (s : Scene) (full : Bool) (tt : Option String) :
    ∀ p ∈ partsAll s full tt, p ≠ "" := by
  intro p hp
  unfold partsAll at hp
  cases full
  · rw [if_neg (by simp)] at hp
    simpa using (List.mem_filter.mp hp).2
  · rw [if_pos rfl] at hp
    simpa using (List.mem_filter.mp hp).2

/-- C8: for every scene in which any subset of the optional fields is
absent, rendering (compact and full/template modes) returns a string
without raising — the pretty-time computation succeeds on every
`dt_local` that is absent or holds at most one "+" (every ISO-formatted
local timestamp does) — and every fragment joined into the output is
non-empty (absent fields are dropped by the truthiness filter or replaced
by explicit fallbacks such as "streetscape"/"unknown"; no `None`-valued
fragment is ever formatted). -/
theorem c8_render_never_raises (s : Scene) (full : Bool)
    (h : ∀ str, s.time.dt_local = some str → str.data.count '+' ≤ 1) :
    ∃ tt, timeTxtE s.time = .ok tt ∧
      renderBody s full = .ok (pyStrip (pyJoin " " (partsAll s full tt))) ∧
      ∀ p ∈ partsAll s full tt, p ≠ "" := by
  obtain ⟨tt, htt⟩ := timeTxtE_ok s.time h
  exact ⟨tt, htt, by simp [renderBody, htt, Except.map], partsAll_no_empty s full tt⟩

/-- A scene carrying a realistic local timestamp, for the C8 witness. -/
def witnessScene : Scene :=
  { time := { dt_local := some "2025-12-24T18:00:00+01:00" } }

/-- Witness for C8 at a concrete scene with all optional fields absent
except the local timestamp. -/
theorem c8_render_never_raises_witness :
    ∃ tt, timeTxtE witnessScene.time = .ok tt ∧
      renderBody witnessScene false =
        .ok (pyStrip (pyJoin " " (partsAll witnessScene false tt))) ∧
      ∀ p ∈ partsAll witnessScene false tt, p ≠ "" :=
  c8_render_never_raises witnessScene false
    (fun str hstr => by injection hstr with h2; rw [← h2]; decide)
